import Mathlib

/-!
Shallow embedding of the better-qdrant-mcp-server core: the vector
validation service (`src/services/validation.ts`), the Qdrant adapter
(`src/services/qdrant.ts`), the Ollama dynamic dimension resolution
(`src/services/embeddings/ollama.ts`), the text processor configuration
(`src/services/text-processing.ts`) and the orchestrator handlers
(`src/index.ts`: handleAddDocuments / handleSearch).

JavaScript numbers are modelled as rationals; a runtime value that may
fail the validator's `typeof val === 'number' || isNaN(val)` checks is
modelled by `JSVal`, and a value that may fail `Array.isArray` by
`JSItem`.  External collaborators (the Qdrant client, the embedding
backends, the file system and the text splitter) are modelled as
explicit fallible inputs (`Except`-valued fields / function arguments).
Store interactions performed by the handlers are recorded in an event
trace so that claims about which store calls are (not) issued are
statable.
-/

/-- A JavaScript runtime value reaching the vector validator:
a finite number, NaN (which has `typeof === 'number'` but `isNaN`),
or any non-number value. -/
inductive JSVal where
  | num (q : ℚ)
  | nan
  | other
deriving DecidableEq, Repr

/-- A JavaScript value expected to be an array of numbers:
either an actual array of `JSVal`s or a non-array value
(fails `Array.isArray`). -/
inductive JSItem where
  | arr (elems : List JSVal)
  | notArr
deriving DecidableEq, Repr

/-- Mirrors `typeof val !== 'number' || isNaN(val)` from
`validateVectorData` (src/services/validation.ts). -/
def isNonNumber : JSVal → Bool
  | .num _ => false
  | .nan => true
  | .other => true

/-- Mirrors `Math.abs(val) > 100` from `validateVectorData`;
`Math.abs` of a non-number or NaN is NaN, and `NaN > 100` is false. -/
def isExtreme : JSVal → Bool
  | .num q => decide ((100 : ℚ) < |q|)
  | .nan => false
  | .other => false

/-- Mirrors `typeof v === 'number'` (NaN included). -/
def jsIsNumberType : JSVal → Bool
  | .num _ => true
  | .nan => true
  | .other => false

/-- The `action` field of `VectorValidationResult`
(src/services/validation.ts). -/
inductive VAction where
  | create_collection
  | compatible
  | size_mismatch
  | error
deriving DecidableEq, Repr

/-- `VectorValidationResult` from src/services/validation.ts. -/
structure VectorValidationResult where
  isValid : Bool
  reason : String
  expectedVectorSize : ℕ
  actualVectorSize : Option ℕ
  action : VAction
  suggestedActions : Option (List String)
deriving DecidableEq, Repr

/-- `VectorDataValidationResult` from src/services/validation.ts. -/
structure VectorDataValidationResult where
  isValid : Bool
  errors : List String
  warnings : List String
  vectorCount : ℕ
  expectedSize : ℕ
deriving DecidableEq, Repr

/-- Collection metadata returned by `getCollectionInfo`
(src/services/qdrant.ts). -/
structure CollectionInfo where
  vectorSize : ℕ
  distance : String
deriving DecidableEq, Repr

/-- Error message template `Vector at index ${index} has size
${vector.length}, expected ${expectedSize}`. -/
def sizeErrMsg (i len expected : ℕ) : String :=
  "Vector at index " ++ toString i ++ " has size " ++ toString len ++
    ", expected " ++ toString expected

/-- Error message template `Vector at index ${index} contains
${nonNumbers.length} non-numeric values`. -/
def nonNumericErrMsg (i n : ℕ) : String :=
  "Vector at index " ++ toString i ++ " contains " ++ toString n ++
    " non-numeric values"

/-- Warning message template `Vector at index ${index} contains
${extremeValues.length} values with absolute value > 100`. -/
def extremeWarnMsg (i n : ℕ) : String :=
  "Vector at index " ++ toString i ++ " contains " ++ toString n ++
    " values with absolute value > 100"

/-- Per-vector body of the `vectors.forEach((vector, index) => ...)`
loop of `validateVectorData`: the errors and warnings pushed for the
vector at position `i`.  A non-array value short-circuits (`return`)
after its single error. -/
def vectorChecks (expectedSize i : ℕ) : JSItem → List String × List String
  | .notArr =>
      (["Vector at index " ++ toString i ++ " is not an array"], [])
  | .arr v =>
      let sizeErrs :=
        if v.length ≠ expectedSize then [sizeErrMsg i v.length expectedSize]
        else []
      let nn := (v.filter isNonNumber).length
      let nnErrs := if nn ≠ 0 then [nonNumericErrMsg i nn] else []
      let ex := (v.filter isExtreme).length
      let exWarns := if ex ≠ 0 then [extremeWarnMsg i ex] else []
      (sizeErrs ++ nnErrs, exWarns)

/-- Accumulation of the `forEach` loop of `validateVectorData`
starting at index `i`: errors and warnings in push order. -/
def collectVectorIssues (expectedSize : ℕ) : ℕ → List JSItem →
    List String × List String
  | _, [] => ([], [])
  | i, v :: rest =>
      let (e, w) := vectorChecks expectedSize i v
      let (es, ws) := collectVectorIssues expectedSize (i + 1) rest
      (e ++ es, w ++ ws)

/-- `validateVectorData(vectors, expectedSize)` from
src/services/validation.ts: the empty-batch check pushes first, then
the per-vector loop; `isValid` is `errors.length === 0`. -/
def validateVectorData (vectors : List JSItem) (expectedSize : ℕ) :
    VectorDataValidationResult :=
  let base := if vectors.isEmpty then ["No vectors provided"] else []
  let issues := collectVectorIssues expectedSize 0 vectors
  { isValid := (base ++ issues.1).isEmpty
    errors := base ++ issues.1
    warnings := issues.2
    vectorCount := vectors.length
    expectedSize := expectedSize }

/-- A hit returned by the store similarity search; the payload is
abstracted to the fields the result formatter reads (absent-or-falsy
fields are `none`) plus its raw serialization. -/
structure Payload where
  textField : Option String
  contentField : Option String
  sourceField : Option String
  metadataSourceField : Option String
  raw : String
deriving DecidableEq, Repr

/-- `SearchResult` from src/types.ts (vector omitted: searches request
`with_vector: false`). -/
structure SearchResult where
  id : String
  score : ℚ
  payload : Payload
deriving DecidableEq, Repr

/-- Abstract model of the `QdrantService` interface as consumed by the
validation service and the orchestrator: each operation either returns
a value or throws (`Except.error` = a raised JS error, message
included).  Upserted documents are abstracted to their count. -/
structure StoreModel where
  collectionExistsR : String → Except String Bool
  getCollectionInfoR : String → Except String (Option CollectionInfo)
  createCollectionR : String → ℕ → Except String Unit
  addDocumentsR : String → ℕ → Except String Unit
  searchR : String → JSItem → Option ℕ → Except String (List SearchResult)

/-- Store interactions observable in a handler run, in call order. -/
inductive StoreEvent where
  | existsCheck (collection : String)
  | getInfo (collection : String)
  | createCall (collection : String) (dim : ℕ)
  | upsertCall (collection : String) (count : ℕ)
  | searchCall (collection : String)
deriving DecidableEq, Repr

/-- The verdict built by the `catch` block of
`validateEmbeddingCompatibility`: reason `Validation failed: ${msg}`. -/
def catchVerdict (svcDim : ℕ) (e : String) : VectorValidationResult :=
  { isValid := false
    reason := "Validation failed: " ++ e
    expectedVectorSize := svcDim
    actualVectorSize := none
    action := .error
    suggestedActions := none }

/-- `validateEmbeddingCompatibility(collection, embeddingService)` from
src/services/validation.ts, with the store calls it issues recorded as
events.  `svcDim` is `embeddingService.vectorSize`. -/
def validateEmbeddingCompatibility (store : StoreModel)
    (collection : String) (svcDim : ℕ) :
    VectorValidationResult × List StoreEvent :=
  match store.collectionExistsR collection with
  | .error e => (catchVerdict svcDim e, [.existsCheck collection])
  | .ok false =>
      ({ isValid := true
         reason := "Collection does not exist - will be created with correct dimensions"
         expectedVectorSize := svcDim
         actualVectorSize := none
         action := .create_collection
         suggestedActions := none }, [.existsCheck collection])
  | .ok true =>
      match store.getCollectionInfoR collection with
      | .error e =>
          (catchVerdict svcDim e,
           [.existsCheck collection, .getInfo collection])
      | .ok none =>
          ({ isValid := false
             reason := "Could not retrieve collection information"
             expectedVectorSize := svcDim
             actualVectorSize := none
             action := .error
             suggestedActions := none },
           [.existsCheck collection, .getInfo collection])
      | .ok (some info) =>
          if info.vectorSize ≠ svcDim then
            ({ isValid := false
               reason := "Vector size mismatch: collection expects " ++
                 toString info.vectorSize ++
                 ", but embedding service produces " ++ toString svcDim
               expectedVectorSize := svcDim
               actualVectorSize := some info.vectorSize
               action := .size_mismatch
               suggestedActions := some
                 ["Use a different embedding service that produces " ++
                    toString info.vectorSize ++ "-dimensional vectors",
                  "Create a new collection with " ++ toString svcDim ++
                    "-dimensional vectors",
                  "Delete and recreate the collection (WARNING: this will lose all data)"] },
             [.existsCheck collection, .getInfo collection])
          else
            ({ isValid := true
               reason := "Vector dimensions are compatible"
               expectedVectorSize := svcDim
               actualVectorSize := some info.vectorSize
               action := .compatible
               suggestedActions := none },
             [.existsCheck collection, .getInfo collection])

/-- Renders a score with two decimals, modelling `score.toFixed(2)` on
the rational model of JS numbers (round half away handled by `round`). -/
def toFixed2 (q : ℚ) : String :=
  let n : ℤ := round (q * 100)
  let s := if n < 0 then "-" else ""
  let m := n.natAbs
  let r := m % 100
  s ++ toString (m / 100) ++ "." ++ (if r < 10 then "0" else "") ++ toString r

/-- Best-effort hit text: `result.payload.text || result.payload.content
|| JSON.stringify(result.payload)` (handleSearch, src/index.ts). -/
def resultText (p : Payload) : String :=
  match p.textField with
  | some t => t
  | none =>
      match p.contentField with
      | some t => t
      | none => p.raw

/-- Source annotation: `result.payload.source ||
result.payload.metadata?.source || ''`. -/
def resultSource (p : Payload) : String :=
  match p.sourceField with
  | some s => s
  | none =>
      match p.metadataSourceField with
      | some s => s
      | none => ""

/-- Text appended for one hit by the `results.forEach` loop of
`handleSearch`. -/
def formatHit (i : ℕ) (r : SearchResult) : String :=
  let base := "Result " ++ toString (i + 1) ++ " (Score: " ++
    toFixed2 r.score ++ "):\n" ++ resultText r.payload ++ "\n"
  (if resultSource r.payload ≠ "" then
    base ++ "Source: " ++ resultSource r.payload ++ "\n"
  else base) ++ "\n"

/-- Accumulated `responseText` after the `results.forEach` loop,
starting from display index `i`. -/
def formatResults : ℕ → List SearchResult → String
  | _, [] => ""
  | i, r :: rest => formatHit i r ++ formatResults (i + 1) rest

/-- The error message built by the handlers for a negative
compatibility verdict: `Embedding compatibility error: ${reason}` plus
the suggested actions block when `suggestedActions` is defined. -/
def compatErrorMessage (r : VectorValidationResult) : String :=
  let base := "Embedding compatibility error: " ++ r.reason
  match r.suggestedActions with
  | some acts =>
      base ++ "\n\nSuggested actions:\n" ++
        String.intercalate "\n" (acts.map (fun a => "- " ++ a))
  | none => base

/-- An initialized embedding service as seen by the handlers:
its resolved `vectorSize` and its `generateEmbeddings` behaviour
(an external HTTP call that may throw). -/
structure SvcModel where
  vectorSize : ℕ
  generateR : List String → Except String (List JSItem)

/-- Result payload of a tool handler: the text content and the
`isError` flag. -/
structure HandlerResult where
  text : String
  isError : Bool
deriving DecidableEq, Repr

/-- Arguments of the `search` tool as they reach `handleSearch`. -/
structure SearchArgsM where
  query : String
  collection : String
  limit : Option ℕ
deriving DecidableEq, Repr

/-- `handleSearch` from src/index.ts over the store model, an already
constructed-and-initialized embedding service (`svcInitR`, `.error` if
`createAndInitializeEmbeddingService` threw), and the tool arguments.
Returns the handler result and the trace of store calls issued. -/
def handleSearch (store : StoreModel) (svcInitR : Except String SvcModel)
    (args : SearchArgsM) : HandlerResult × List StoreEvent :=
  match svcInitR with
  | .error e => ({ text := "Error searching: " ++ e, isError := true }, [])
  | .ok svc =>
      let compatE := validateEmbeddingCompatibility store args.collection
        svc.vectorSize
      if !compatE.1.isValid then
        ({ text := compatErrorMessage compatE.1, isError := true },
         compatE.2)
      else
        match svc.generateR [args.query] with
        | .error e =>
            ({ text := "Error searching: " ++ e, isError := true },
             compatE.2)
        | .ok embs =>
            let queryEmbedding := embs.headD JSItem.notArr
            let vv := validateVectorData [queryEmbedding] svc.vectorSize
            if !vv.isValid then
              ({ text := "Query vector validation failed: " ++
                   String.intercalate ", " vv.errors, isError := true },
               compatE.2)
            else
              match store.searchR args.collection queryEmbedding args.limit with
              | .error e =>
                  ({ text := "Error searching: " ++ e, isError := true },
                   compatE.2 ++ [.searchCall args.collection])
              | .ok results =>
                  let formatted := formatResults 0 results
                  let base :=
                    if formatted = "" then "No results found." else formatted
                  let final :=
                    if vv.warnings.isEmpty then base
                    else base ++ "\nQuery vector warnings:\n" ++
                      String.intercalate "\n" vv.warnings
                  ({ text := final, isError := false },
                   compatE.2 ++ [.searchCall args.collection])

/-- The mutable configuration of the server's single shared
`TextProcessor` instance (src/services/text-processing.ts). -/
structure TPState where
  chunkSize : ℕ
  chunkOverlap : ℕ
deriving DecidableEq, Repr

/-- Constructor defaults of `TextProcessor`: chunkSize 1000,
chunkOverlap 200. -/
def defaultTPState : TPState := ⟨1000, 200⟩

/-- The configuration step at the top of `handleAddDocuments`:
`if (args.chunkSize) setChunkSize(...)` and likewise for the overlap;
a supplied value of 0 is falsy in JavaScript and is therefore ignored. -/
def configureProcessor (st : TPState) (cs co : Option ℕ) : TPState :=
  let st1 :=
    match cs with
    | some n => if n ≠ 0 then { st with chunkSize := n } else st
    | none => st
  match co with
  | some n => if n ≠ 0 then { st1 with chunkOverlap := n } else st1
  | none => st1

/-- Arguments of the `add_documents` tool as they reach
`handleAddDocuments`. -/
structure AddDocsArgsM where
  filePath : String
  collection : String
  chunkSizeArg : Option ℕ
  chunkOverlapArg : Option ℕ
deriving DecidableEq, Repr

/-- The vector-validation failure message of `handleAddDocuments`. -/
def vectorValidationFailMsg (vv : VectorDataValidationResult) : String :=
  let base := "Vector validation failed:\n" ++
    String.intercalate "\n" vv.errors
  if vv.warnings.isEmpty then base
  else base ++ "\n\nWarnings:\n" ++ String.intercalate "\n" vv.warnings

/-- Body of `handleAddDocuments` after the text-processor
configuration step, run with processor settings `tp`.  `fileR` models
`readFileSync` (may throw), `split` the external recursive text
splitter applied at the processor's current chunkSize/chunkOverlap,
`svcInitR` the provider construction + initialization.  Returns the
handler result and the store-call trace. -/
def handleAddDocumentsBody (tp : TPState) (collection : String)
    (fileR : Except String String) (split : ℕ → ℕ → String → List String)
    (svcInitR : Except String SvcModel) (store : StoreModel) :
    HandlerResult × List StoreEvent :=
  match fileR with
  | .error e =>
      ({ text := "Error adding documents: " ++ e, isError := true }, [])
  | .ok content =>
      let chunks := split tp.chunkSize tp.chunkOverlap content
      match svcInitR with
      | .error e =>
          ({ text := "Error adding documents: " ++ e, isError := true }, [])
      | .ok svc =>
          let compatE := validateEmbeddingCompatibility store
            collection svc.vectorSize
          if !compatE.1.isValid then
            ({ text := compatErrorMessage compatE.1, isError := true },
             compatE.2)
          else
            match svc.generateR chunks with
            | .error e =>
                ({ text := "Error adding documents: " ++ e,
                   isError := true }, compatE.2)
            | .ok embeddings =>
                let vv := validateVectorData embeddings svc.vectorSize
                if !vv.isValid then
                  ({ text := vectorValidationFailMsg vv, isError := true },
                   compatE.2)
                else
                  let createStep : Except String Unit × List StoreEvent :=
                    if compatE.1.action = VAction.create_collection then
                      (store.createCollectionR collection svc.vectorSize,
                       [.createCall collection svc.vectorSize])
                    else (.ok (), [])
                  match createStep.1 with
                  | .error e =>
                      ({ text := "Error adding documents: " ++ e,
                         isError := true }, compatE.2 ++ createStep.2)
                  | .ok _ =>
                      match store.addDocumentsR collection
                          chunks.length with
                      | .error e =>
                          ({ text := "Error adding documents: " ++ e,
                             isError := true },
                           compatE.2 ++ createStep.2 ++
                             [.upsertCall collection chunks.length])
                      | .ok _ =>
                          let msg := "Successfully processed and added " ++
                            toString chunks.length ++
                            " chunks to collection " ++ collection
                          let final :=
                            if vv.warnings.isEmpty then msg
                            else msg ++ "\n\nWarnings:\n" ++
                              String.intercalate "\n" vv.warnings
                          ({ text := final, isError := false },
                           compatE.2 ++ createStep.2 ++
                             [.upsertCall collection chunks.length])

/-- `handleAddDocuments` from src/index.ts: configures the shared
`TextProcessor` from the supplied arguments, runs the pipeline, and
returns (result, store trace, processor state after the invocation) —
the processor state persists on the server across invocations. -/
def handleAddDocuments (tp : TPState) (args : AddDocsArgsM)
    (fileR : Except String String) (split : ℕ → ℕ → String → List String)
    (svcInitR : Except String SvcModel) (store : StoreModel) :
    HandlerResult × List StoreEvent × TPState :=
  let tpNew := configureProcessor tp args.chunkSizeArg args.chunkOverlapArg
  let out := handleAddDocumentsBody tpNew args.collection fileR split svcInitR store
  (out.1, out.2, tpNew)

/-- Model of the backing `QdrantClient` (the official REST client):
each call either returns or throws.  `getCollectionsR` already carries
the extracted collection names; upserted points are abstracted to their
count (the upsert is issued with `wait: true`); `getCollectionR`
returns `none` for a response without a recognizable vector config. -/
structure QdrantClientModel where
  getCollectionsR : Except String (List String)
  createCollectionR : String → ℕ → Except String Unit
  upsertR : String → ℕ → Except String Unit
  deleteCollectionR : String → Except String Unit
  searchR : String → List ℚ → ℕ → Except String (List SearchResult)
  getCollectionR : String → Except String (Option CollectionInfo)

/-- The message produced by `handleQdrantError`:
`Failed to ${operation}: ${errorMessage}` (src/services/qdrant.ts). -/
def failMsg (operation msg : String) : String :=
  "Failed to " ++ operation ++ ": " ++ msg

namespace DefaultQdrantService

/-- `DefaultQdrantService.listCollections`: wraps a client failure via
`handleQdrantError(error, 'list collections')`. -/
def listCollections (c : QdrantClientModel) : Except String (List String) :=
  match c.getCollectionsR with
  | .ok cols => .ok cols
  | .error e => .error (failMsg "list collections" e)

/-- `DefaultQdrantService.createCollection` (fixed Cosine distance):
wraps a client failure via `handleQdrantError(error, 'create collection')`. -/
def createCollection (c : QdrantClientModel) (name : String) (vectorSize : ℕ) :
    Except String Unit :=
  match c.createCollectionR name vectorSize with
  | .ok _ => .ok ()
  | .error e => .error (failMsg "create collection" e)

/-- `DefaultQdrantService.addDocuments` (upsert with `wait: true`):
wraps a client failure via `handleQdrantError(error, 'add documents')`. -/
def addDocuments (c : QdrantClientModel) (collection : String) (count : ℕ) :
    Except String Unit :=
  match c.upsertR collection count with
  | .ok _ => .ok ()
  | .error e => .error (failMsg "add documents" e)

/-- `DefaultQdrantService.deleteCollection`: wraps a client failure via
`handleQdrantError(error, 'delete collection')`. -/
def deleteCollection (c : QdrantClientModel) (name : String) :
    Except String Unit :=
  match c.deleteCollectionR name with
  | .ok _ => .ok ()
  | .error e => .error (failMsg "delete collection" e)

/-- `DefaultQdrantService.search` (default limit 10): wraps a client
failure via `handleQdrantError(error, 'search collection')`. -/
def search (c : QdrantClientModel) (collection : String) (vector : List ℚ)
    (limit : Option ℕ) : Except String (List SearchResult) :=
  match c.searchR collection vector (limit.getD 10) with
  | .ok rs => .ok rs
  | .error e => .error (failMsg "search collection" e)

/-- `DefaultQdrantService.collectionExists`: calls `listCollections`
and checks membership; a failure is caught (`console.warn`) and turned
into the normal return value `false`. -/
def collectionExists (c : QdrantClientModel) (name : String) :
    Except String Bool :=
  match listCollections c with
  | .ok cols => .ok (cols.contains name)
  | .error _ => .ok false

/-- `DefaultQdrantService.getCollectionInfo`: a thrown client error is
caught (`console.warn`) and turned into the normal return value `null`. -/
def getCollectionInfo (c : QdrantClientModel) (name : String) :
    Except String (Option CollectionInfo) :=
  match c.getCollectionR name with
  | .ok info => .ok info
  | .error _ => .ok none

end DefaultQdrantService

/-- The cache key of the Ollama dimension cache:
`${this.endpoint}:${this.model || this.defaultModel}`
(src/services/embeddings/ollama.ts, `model` already defaulted). -/
def ollamaKey (endpoint model : String) : String := endpoint ++ ":" ++ model

/-- `Map.get` on the static `dimensionCache`, modelled as an
association list. -/
def cacheLookup : List (String × ℕ) → String → Option ℕ
  | [], _ => none
  | (k, v) :: rest, key => if k = key then some v else cacheLookup rest key

/-- `Map.set` on the static `dimensionCache`. -/
def cacheSet : List (String × ℕ) → String → ℕ → List (String × ℕ)
  | [], k, v => [(k, v)]
  | (k', v') :: rest, k, v =>
      if k' = k then (k, v) :: rest else (k', v') :: cacheSet rest k v

/-- `detectModelDimensions` (src/services/embeddings/ollama.ts): the
raw `/api/embed` probe response is `resp` (`.error` = the HTTP call
threw, `.ok none` = missing/non-array `embeddings` field, `.ok (some l)`
= the `embeddings` array).  Rejects an empty `embeddings` array and a
first element that is not an array of numbers; otherwise returns the
first embedding. -/
def detectModelDimensions (resp : Except String (Option (List JSItem))) :
    Except String (List JSVal) :=
  match resp with
  | .error e => .error e
  | .ok none =>
      .error "Invalid response from Ollama API during dimension detection"
  | .ok (some []) =>
      .error "Invalid response from Ollama API during dimension detection"
  | .ok (some (first :: _)) =>
      match first with
      | .notArr =>
          .error "Invalid embedding format in Ollama response during dimension detection"
      | .arr elems =>
          if elems.all jsIsNumberType then .ok elems
          else .error "Invalid embedding format in Ollama response during dimension detection"

/-- Outcome of one `initializeVectorSize()` call: the resolved
`_vectorSize` (or the thrown error), the dimension cache afterwards,
and whether a probe (`detectModelDimensions` HTTP call) was issued. -/
structure InitOutcome where
  result : Except String ℕ
  cache : List (String × ℕ)
  probed : Bool
deriving Repr

/-- `OllamaEmbeddingService.initializeVectorSize`
(src/services/embeddings/ollama.ts).  `resp` is the probe response
consumed if a probe is issued.  The cache check is
`if (cachedSize) { ... return; }` — a JavaScript truthiness test, so a
cached value of 0 does not count as a hit.  A successful probe stores
`testEmbedding.length` under the key; a failed probe throws
`Failed to detect vector dimensions for model ${model}: ${error}`
without touching the cache. -/
def initializeVectorSize (cache : List (String × ℕ))
    (endpoint model : String)
    (resp : Except String (Option (List JSItem))) : InitOutcome :=
  let key := ollamaKey endpoint model
  let probePath : InitOutcome :=
    match detectModelDimensions resp with
    | .ok emb =>
        { result := .ok emb.length
          cache := cacheSet cache key emb.length
          probed := true }
    | .error e =>
        { result := .error ("Failed to detect vector dimensions for model "
            ++ model ++ ": " ++ e)
          cache := cache
          probed := true }
  match cacheLookup cache key with
  | some n =>
      if n ≠ 0 then { result := .ok n, cache := cache, probed := false }
      else probePath
  | none => probePath

/-- Concrete store in which no collection exists and every call
succeeds. -/
def storeAbsent : StoreModel :=
  { collectionExistsR := fun _ => .ok false
    getCollectionInfoR := fun _ => .ok none
    createCollectionR := fun _ _ => .ok ()
    addDocumentsR := fun _ _ => .ok ()
    searchR := fun _ _ _ => .ok [] }

/-- Concrete store holding one collection "docs" of dimension 4. -/
def storeDocs4 : StoreModel :=
  { collectionExistsR := fun n => .ok (n = "docs")
    getCollectionInfoR := fun n =>
      .ok (if n = "docs" then some ⟨4, "Cosine"⟩ else none)
    createCollectionR := fun _ _ => .ok ()
    addDocumentsR := fun _ _ => .ok ()
    searchR := fun _ _ _ => .ok [] }

/-- Concrete store whose existence check throws. -/
def storeExistsThrows : StoreModel :=
  { collectionExistsR := fun _ => .error "connection refused"
    getCollectionInfoR := fun _ => .ok none
    createCollectionR := fun _ _ => .ok ()
    addDocumentsR := fun _ _ => .ok ()
    searchR := fun _ _ _ => .ok [] }

/-- Concrete store whose metadata fetch throws. -/
def storeInfoThrows : StoreModel :=
  { collectionExistsR := fun _ => .ok true
    getCollectionInfoR := fun _ => .error "timeout"
    createCollectionR := fun _ _ => .ok ()
    addDocumentsR := fun _ _ => .ok ()
    searchR := fun _ _ _ => .ok [] }

/-- C3: against a collection absent from the store, the compatibility
check returns valid=true, action=create_collection with a null actual
dimension, for every provider dimension, and its store-call trace is
the existence check alone — no metadata retrieval happens. -/
theorem compat_missing_collection_create (store : StoreModel)
    (c : String) (d : ℕ) (h : store.collectionExistsR c = .ok false) :
    validateEmbeddingCompatibility store c d =
      ({ isValid := true
         reason := "Collection does not exist - will be created with correct dimensions"
         expectedVectorSize := d
         actualVectorSize := none
         action := .create_collection
         suggestedActions := none }, [StoreEvent.existsCheck c]) := by
  simp [validateEmbeddingCompatibility, h]

theorem compat_missing_collection_create_witness :
    storeAbsent.collectionExistsR "notes" = .ok false ∧
    validateEmbeddingCompatibility storeAbsent "notes" 768 =
      ({ isValid := true
         reason := "Collection does not exist - will be created with correct dimensions"
         expectedVectorSize := 768
         actualVectorSize := none
         action := .create_collection
         suggestedActions := none }, [StoreEvent.existsCheck "notes"]) :=
  ⟨rfl, compat_missing_collection_create storeAbsent "notes" 768 rfl⟩

/-- C2: against an existing collection of dimension D, a provider of
dimension D yields valid=true / action=compatible; a provider of a
different dimension d yields valid=false / action=size_mismatch with
the provider dimension as expected, the collection dimension as
actual, and exactly the three remediation suggestions (switch
provider, create a new collection, destructively recreate). -/
theorem compat_existing_collection_dimensions (store : StoreModel)
    (c : String) (d D : ℕ) (dist : String)
    (hex : store.collectionExistsR c = .ok true)
    (hinfo : store.getCollectionInfoR c = .ok (some ⟨D, dist⟩)) :
    (d = D →
      (validateEmbeddingCompatibility store c d).1 =
        { isValid := true
          reason := "Vector dimensions are compatible"
          expectedVectorSize := d
          actualVectorSize := some D
          action := .compatible
          suggestedActions := none }) ∧
    (d ≠ D →
      (validateEmbeddingCompatibility store c d).1 =
        { isValid := false
          reason := "Vector size mismatch: collection expects " ++
            toString D ++ ", but embedding service produces " ++ toString d
          expectedVectorSize := d
          actualVectorSize := some D
          action := .size_mismatch
          suggestedActions := some
            ["Use a different embedding service that produces " ++
               toString D ++ "-dimensional vectors",
             "Create a new collection with " ++ toString d ++
               "-dimensional vectors",
             "Delete and recreate the collection (WARNING: this will lose all data)"] } ∧
      ((validateEmbeddingCompatibility store c d).1.suggestedActions.getD []).length = 3) := by
  constructor
  · intro hdd
    subst hdd
    simp [validateEmbeddingCompatibility, hex, hinfo]
  · intro hdd
    have hne : D ≠ d := fun h => hdd h.symm
    simp [validateEmbeddingCompatibility, hex, hinfo, hne]

theorem compat_existing_collection_dimensions_witness :
    ((4 : ℕ) = 4 →
      (validateEmbeddingCompatibility storeDocs4 "docs" 4).1 =
        { isValid := true
          reason := "Vector dimensions are compatible"
          expectedVectorSize := 4
          actualVectorSize := some 4
          action := .compatible
          suggestedActions := none }) ∧
    ((1536 : ℕ) ≠ 4 →
      (validateEmbeddingCompatibility storeDocs4 "docs" 1536).1 =
        { isValid := false
          reason := "Vector size mismatch: collection expects " ++
            toString 4 ++ ", but embedding service produces " ++ toString 1536
          expectedVectorSize := 1536
          actualVectorSize := some 4
          action := .size_mismatch
          suggestedActions := some
            ["Use a different embedding service that produces " ++
               toString 4 ++ "-dimensional vectors",
             "Create a new collection with " ++ toString 1536 ++
               "-dimensional vectors",
             "Delete and recreate the collection (WARNING: this will lose all data)"] } ∧
      ((validateEmbeddingCompatibility storeDocs4 "docs" 1536).1.suggestedActions.getD []).length = 3) :=
  ⟨fun h =>
    ((compat_existing_collection_dimensions storeDocs4 "docs" 4 4 "Cosine"
      (by simp [storeDocs4]) (by simp [storeDocs4])).1 h),
   fun h =>
    ((compat_existing_collection_dimensions storeDocs4 "docs" 1536 4 "Cosine"
      (by simp [storeDocs4]) (by simp [storeDocs4])).2 h)⟩

/-- C10: the compatibility check is total over store failures — a
thrown existence check, or a thrown metadata fetch after a positive
existence check, is caught and returned as a verdict with
valid=false, action=error, and the underlying message embedded in the
reason (`Validation failed: ${msg}`), never propagated. -/
theorem compat_check_total_on_store_errors (store : StoreModel)
    (c : String) (d : ℕ) (e e' : String) :
    catchVerdict d e =
      { isValid := false
        reason := "Validation failed: " ++ e
        expectedVectorSize := d
        actualVectorSize := none
        action := .error
        suggestedActions := none } ∧
    (store.collectionExistsR c = .error e →
      validateEmbeddingCompatibility store c d =
        (catchVerdict d e, [StoreEvent.existsCheck c])) ∧
    (store.collectionExistsR c = .ok true →
      store.getCollectionInfoR c = .error e' →
      validateEmbeddingCompatibility store c d =
        (catchVerdict d e', [StoreEvent.existsCheck c, StoreEvent.getInfo c])) := by
  refine ⟨rfl, ?_, ?_⟩
  · intro h
    simp [validateEmbeddingCompatibility, h]
  · intro h1 h2
    simp [validateEmbeddingCompatibility, h1, h2]

theorem compat_check_total_on_store_errors_witness :
    validateEmbeddingCompatibility storeExistsThrows "docs" 4 =
      (catchVerdict 4 "connection refused", [StoreEvent.existsCheck "docs"]) ∧
    validateEmbeddingCompatibility storeInfoThrows "docs" 4 =
      (catchVerdict 4 "timeout",
       [StoreEvent.existsCheck "docs", StoreEvent.getInfo "docs"]) :=
  ⟨(compat_check_total_on_store_errors storeExistsThrows "docs" 4
      "connection refused" "x").2.1 rfl,
   (compat_check_total_on_store_errors storeInfoThrows "docs" 4
      "x" "timeout").2.2 rfl rfl⟩

theorem filter_isNonNumber_map_num (v : List ℚ) :
    (v.map JSVal.num).filter isNonNumber = [] := by
  induction v with
  | nil => rfl
  | cons q rest ih => simp [isNonNumber, ih]

theorem filter_isExtreme_small (v : List ℚ) (hsmall : ∀ q ∈ v, |q| ≤ 100) :
    (v.map JSVal.num).filter isExtreme = [] := by
  induction v with
  | nil => rfl
  | cons q rest ih =>
      have h1 : ¬ ((100 : ℚ) < |q|) := not_lt.mpr (hsmall q (by simp))
      have h2 := ih (fun x hx => hsmall x (by simp [hx]))
      simp [isExtreme, h1, h2]

/-- C5: the vector-data verdict is valid exactly when its error list is
empty, regardless of warnings; and the concrete batch of one
correctly-sized numeric vector whose single extreme element is 150
yields valid=true, no errors, and exactly one warning naming 1 value. -/
theorem vector_data_valid_iff_no_errors :
    (∀ (vectors : List JSItem) (expected : ℕ),
      ((validateVectorData vectors expected).isValid = true ↔
        (validateVectorData vectors expected).errors = [])) ∧
    validateVectorData [JSItem.arr [.num 1, .num 150, .num 2]] 3 =
      { isValid := true
        errors := []
        warnings := ["Vector at index 0 contains 1 values with absolute value > 100"]
        vectorCount := 1
        expectedSize := 3 } := by
  constructor
  · intro vectors expected
    simp [validateVectorData]
  · decide

/-- Specification of the mixed-length error report: one size-mismatch
error per offending index, in index order, referencing the actual and
expected lengths. -/
def expectedSizeErrors (expected : ℕ) : ℕ → List ℕ → List String
  | _, [] => []
  | i, len :: rest =>
      (if len ≠ expected then [sizeErrMsg i len expected] else []) ++
        expectedSizeErrors expected (i + 1) rest

theorem collect_numeric_errors (expected : ℕ) (vs : List (List ℚ)) :
    ∀ i, (collectVectorIssues expected i
        (vs.map (fun v => JSItem.arr (v.map JSVal.num)))).1 =
      expectedSizeErrors expected i (vs.map List.length) := by
  induction vs with
  | nil => intro i; rfl
  | cons v rest ih =>
      intro i
      simp [collectVectorIssues, vectorChecks, expectedSizeErrors,
        filter_isNonNumber_map_num, ih]

/-- C6: for a non-empty batch of numeric vectors, the error list of the
vector-data verdict is exactly one error per index whose length differs
from the expected dimension, each naming that index and its actual vs
expected length, with every offending index reported in the one call. -/
theorem mixed_length_batch_errors (vs : List (List ℚ)) (expected : ℕ)
    (h : vs ≠ []) :
    (validateVectorData (vs.map (fun v => JSItem.arr (v.map JSVal.num)))
        expected).errors =
      expectedSizeErrors expected 0 (vs.map List.length) := by
  have hne : (vs.map (fun v => JSItem.arr (v.map JSVal.num))).isEmpty = false := by
    cases vs with
    | nil => exact absurd rfl h
    | cons a l => rfl
  simp [validateVectorData, hne, collect_numeric_errors]

theorem mixed_length_batch_errors_witness :
    ([[(1 : ℚ), 2], [1, 2, 3], [4]] : List (List ℚ)) ≠ [] ∧
    (validateVectorData
        (([[(1 : ℚ), 2], [1, 2, 3], [4]] : List (List ℚ)).map
          (fun v => JSItem.arr (v.map JSVal.num))) 3).errors =
      expectedSizeErrors 3 0 [2, 3, 1] :=
  ⟨List.cons_ne_nil _ _,
   mixed_length_batch_errors [[(1 : ℚ), 2], [1, 2, 3], [4]] 3
     (List.cons_ne_nil _ _)⟩

/-- Concrete backing client all of whose calls throw. -/
def clientAllFail : QdrantClientModel :=
  { getCollectionsR := .error "connection refused"
    createCollectionR := fun _ _ => .error "connection refused"
    upsertR := fun _ _ => .error "connection refused"
    deleteCollectionR := fun _ => .error "connection refused"
    searchR := fun _ _ _ => .error "connection refused"
    getCollectionR := fun _ => .error "connection refused" }

/-- C7 counterexample: the claim says every vector-store client
operation — the existence check included — wraps a backing failure
into a raised error and never silently converts it into a normal
return value.  But when the backing `getCollections` call fails,
`collectionExists` returns the normal value `false` (and
`getCollectionInfo` likewise returns `null` when `getCollection`
fails), instead of raising. -/
theorem qdrant_exists_swallows_failure_counterexample :
    clientAllFail.getCollectionsR = .error "connection refused" ∧
    DefaultQdrantService.collectionExists clientAllFail "docs" = .ok false ∧
    clientAllFail.getCollectionR "docs" = .error "connection refused" ∧
    DefaultQdrantService.getCollectionInfo clientAllFail "docs" = .ok none := by
  refine ⟨rfl, ?_, rfl, rfl⟩
  rfl

/-- C7 amended: the five forwarding operations (list collections,
create collection, upsert, delete collection, similarity search) wrap
a backing failure into a raised error `Failed to ${operation}:
${message}` with no retry; the existence check instead catches the
failure and returns false, and the metadata fetch catches it and
returns null. -/
theorem qdrant_error_wrapping_amended (c : QdrantClientModel)
    (name : String) (dim cnt : ℕ) (v : List ℚ) (lim : Option ℕ) (e : String)
    (h1 : c.getCollectionsR = .error e)
    (h2 : c.createCollectionR name dim = .error e)
    (h3 : c.upsertR name cnt = .error e)
    (h4 : c.deleteCollectionR name = .error e)
    (h5 : c.searchR name v (lim.getD 10) = .error e)
    (h6 : c.getCollectionR name = .error e) :
    DefaultQdrantService.listCollections c =
      .error (failMsg "list collections" e) ∧
    DefaultQdrantService.createCollection c name dim =
      .error (failMsg "create collection" e) ∧
    DefaultQdrantService.addDocuments c name cnt =
      .error (failMsg "add documents" e) ∧
    DefaultQdrantService.deleteCollection c name =
      .error (failMsg "delete collection" e) ∧
    DefaultQdrantService.search c name v lim =
      .error (failMsg "search collection" e) ∧
    DefaultQdrantService.collectionExists c name = .ok false ∧
    DefaultQdrantService.getCollectionInfo c name = .ok none := by
  refine ⟨?_, ?_, ?_, ?_, ?_, ?_, ?_⟩
  · simp [DefaultQdrantService.listCollections, h1]
  · simp [DefaultQdrantService.createCollection, h2]
  · simp [DefaultQdrantService.addDocuments, h3]
  · simp [DefaultQdrantService.deleteCollection, h4]
  · simp [DefaultQdrantService.search, h5]
  · simp [DefaultQdrantService.collectionExists,
      DefaultQdrantService.listCollections, h1]
  · simp [DefaultQdrantService.getCollectionInfo, h6]

theorem qdrant_error_wrapping_amended_witness :
    DefaultQdrantService.listCollections clientAllFail =
      .error (failMsg "list collections" "connection refused") ∧
    DefaultQdrantService.createCollection clientAllFail "docs" 4 =
      .error (failMsg "create collection" "connection refused") ∧
    DefaultQdrantService.addDocuments clientAllFail "docs" 3 =
      .error (failMsg "add documents" "connection refused") ∧
    DefaultQdrantService.deleteCollection clientAllFail "docs" =
      .error (failMsg "delete collection" "connection refused") ∧
    DefaultQdrantService.search clientAllFail "docs" [1] none =
      .error (failMsg "search collection" "connection refused") ∧
    DefaultQdrantService.collectionExists clientAllFail "docs" = .ok false ∧
    DefaultQdrantService.getCollectionInfo clientAllFail "docs" = .ok none :=
  qdrant_error_wrapping_amended clientAllFail "docs" 4 3 [1] none
    "connection refused" rfl rfl rfl rfl rfl rfl

/-- C9 counterexample: a probe that returns an embedding of length 0
(a response `{"embeddings": [[]]}` passes every format check in
`detectModelDimensions`) stores dimension 0 in the cache; because the
cache hit test is the JavaScript truthiness check `if (cachedSize)`,
a later resolution call for the same key treats the stored 0 as a
miss, issues another probe, and overwrites the cached entry with a
different value — refuting "never issues another probe / never
overwrites" for stored dimensions. -/
theorem dimension_cache_zero_counterexample :
    (initializeVectorSize [] "http://localhost:11434" "nomic-embed-text"
        (.ok (some [JSItem.arr []]))).cache =
      [(ollamaKey "http://localhost:11434" "nomic-embed-text", 0)] ∧
    (initializeVectorSize
        [(ollamaKey "http://localhost:11434" "nomic-embed-text", 0)]
        "http://localhost:11434" "nomic-embed-text"
        (.ok (some [JSItem.arr [.num 1, .num 2]]))).probed = true ∧
    (initializeVectorSize
        [(ollamaKey "http://localhost:11434" "nomic-embed-text", 0)]
        "http://localhost:11434" "nomic-embed-text"
        (.ok (some [JSItem.arr [.num 1, .num 2]]))).cache =
      [(ollamaKey "http://localhost:11434" "nomic-embed-text", 2)] ∧
    (2 : ℕ) ≠ 0 := by
  refine ⟨?_, ?_, ?_, by decide⟩ <;> rfl

/-- C9 amended: for every key whose cached dimension is nonzero, a
later resolution call reuses the cached value, issues no probe, and
leaves the cache unchanged (so a nonzero resolved dimension is
constant for the process lifetime); a cached dimension of 0 fails the
truthy cache-hit test and triggers a fresh probe that may overwrite
the entry. -/
theorem dimension_cache_nonzero_reuse_amended
    (cache : List (String × ℕ)) (endpoint model : String) (n : ℕ)
    (resp : Except String (Option (List JSItem)))
    (hhit : cacheLookup cache (ollamaKey endpoint model) = some n)
    (hnz : n ≠ 0) :
    (initializeVectorSize cache endpoint model resp).result = .ok n ∧
    (initializeVectorSize cache endpoint model resp).cache = cache ∧
    (initializeVectorSize cache endpoint model resp).probed = false := by
  refine ⟨?_, ?_, ?_⟩ <;> simp [initializeVectorSize, hhit, hnz]

theorem dimension_cache_nonzero_reuse_amended_witness :
    cacheLookup [(ollamaKey "e" "m", 768)] (ollamaKey "e" "m") = some 768 ∧
    (768 : ℕ) ≠ 0 ∧
    (initializeVectorSize [(ollamaKey "e" "m", 768)] "e" "m"
        (.ok (some [JSItem.arr [.num 1]]))).result = .ok 768 ∧
    (initializeVectorSize [(ollamaKey "e" "m", 768)] "e" "m"
        (.ok (some [JSItem.arr [.num 1]]))).cache =
      [(ollamaKey "e" "m", 768)] ∧
    (initializeVectorSize [(ollamaKey "e" "m", 768)] "e" "m"
        (.ok (some [JSItem.arr [.num 1]]))).probed = false :=
  ⟨rfl, by decide,
   (dimension_cache_nonzero_reuse_amended [(ollamaKey "e" "m", 768)]
     "e" "m" 768 (.ok (some [JSItem.arr [.num 1]])) rfl (by decide)).1,
   (dimension_cache_nonzero_reuse_amended [(ollamaKey "e" "m", 768)]
     "e" "m" 768 (.ok (some [JSItem.arr [.num 1]])) rfl (by decide)).2.1,
   (dimension_cache_nonzero_reuse_amended [(ollamaKey "e" "m", 768)]
     "e" "m" 768 (.ok (some [JSItem.arr [.num 1]])) rfl (by decide)).2.2⟩

/-- Concrete embedding service of dimension 1 producing one in-range
vector per input text. -/
def svcDim1 : SvcModel :=
  { vectorSize := 1
    generateR := fun ts => .ok (ts.map (fun _ => JSItem.arr [JSVal.num 1])) }

/-- Concrete external splitter whose chunk count equals the chunk size
it is configured with, making the configured size observable. -/
def probeSplit : ℕ → ℕ → String → List String :=
  fun cs _ _ => List.replicate cs "c"

/-- C8 counterexample: the claim says an add_documents invocation that
omits chunkSize/chunkOverlap splits with the defaults (1000/200)
independently of earlier invocations.  But the server shares one
mutable TextProcessor: after an earlier invocation set chunkSize 5, a
later invocation omitting both settings splits at chunk size 5 (its
upsert carries 5 chunks, where the default settings would have
produced 1000), so the processor configuration is cross-invocation
shared mutable state beyond the dimension cache. -/
theorem chunk_settings_persist_counterexample :
    (handleAddDocuments defaultTPState ⟨"f", "docs", some 5, none⟩
        (.ok "text") probeSplit (.ok svcDim1) storeAbsent).2.2 =
      ⟨5, 200⟩ ∧
    (handleAddDocuments
        (handleAddDocuments defaultTPState ⟨"f", "docs", some 5, none⟩
          (.ok "text") probeSplit (.ok svcDim1) storeAbsent).2.2
        ⟨"f", "docs", none, none⟩
        (.ok "text") probeSplit (.ok svcDim1) storeAbsent).2.1 =
      [StoreEvent.existsCheck "docs", StoreEvent.createCall "docs" 1,
       StoreEvent.upsertCall "docs" 5] ∧
    (probeSplit defaultTPState.chunkSize defaultTPState.chunkOverlap
        "text").length = 1000 ∧
    (5 : ℕ) ≠ 1000 := by
  refine ⟨rfl, rfl, ?_, by decide⟩
  show (List.replicate defaultTPState.chunkSize "c").length = 1000
  rw [List.length_replicate]
  rfl

/-- C8 amended: an invocation that omits chunkSize and chunkOverlap
behaves exactly like one explicitly passing the processor's current
(carried) settings, and leaves the processor state unchanged; the
defaults 1000/200 are only the initial state of the shared processor,
not per-invocation values. -/
theorem chunk_settings_omitted_args_amended (tp : TPState) (f c : String)
    (fileR : Except String String) (split : ℕ → ℕ → String → List String)
    (svcInitR : Except String SvcModel) (store : StoreModel) (st2 : TPState)
    (h1 : tp.chunkSize ≠ 0) (h2 : tp.chunkOverlap ≠ 0) :
    handleAddDocuments tp ⟨f, c, none, none⟩ fileR split svcInitR store =
      handleAddDocuments st2 ⟨f, c, some tp.chunkSize, some tp.chunkOverlap⟩
        fileR split svcInitR store ∧
    (handleAddDocuments tp ⟨f, c, none, none⟩ fileR split svcInitR
        store).2.2 = tp ∧
    defaultTPState = ⟨1000, 200⟩ := by
  have hcfg1 : configureProcessor tp none none = tp := rfl
  have hcfg2 :
      configureProcessor st2 (some tp.chunkSize) (some tp.chunkOverlap) = tp := by
    simp [configureProcessor, h1, h2]
  refine ⟨?_, ?_, rfl⟩
  · simp [handleAddDocuments, hcfg1, hcfg2]
  · simp [handleAddDocuments, hcfg1]

theorem chunk_settings_omitted_args_amended_witness :
    (⟨5, 200⟩ : TPState).chunkSize ≠ 0 ∧
    (⟨5, 200⟩ : TPState).chunkOverlap ≠ 0 ∧
    (handleAddDocuments ⟨5, 200⟩ ⟨"f", "docs", none, none⟩
        (.ok "text") probeSplit (.ok svcDim1) storeAbsent =
      handleAddDocuments defaultTPState ⟨"f", "docs", some 5, some 200⟩
        (.ok "text") probeSplit (.ok svcDim1) storeAbsent ∧
    (handleAddDocuments ⟨5, 200⟩ ⟨"f", "docs", none, none⟩
        (.ok "text") probeSplit (.ok svcDim1) storeAbsent).2.2 =
      ⟨5, 200⟩ ∧
    defaultTPState = ⟨1000, 200⟩) :=
  ⟨by decide, by decide,
   chunk_settings_omitted_args_amended ⟨5, 200⟩ "f" "docs" (.ok "text")
     probeSplit (.ok svcDim1) storeAbsent defaultTPState
     (by decide) (by decide)⟩

theorem validateVectorData_single_ok (d : ℕ) (v : List ℚ)
    (hlen : v.length = d) (hsmall : ∀ q ∈ v, |q| ≤ 100) :
    validateVectorData [JSItem.arr (v.map JSVal.num)] d =
      { isValid := true
        errors := []
        warnings := []
        vectorCount := 1
        expectedSize := d } := by
  simp [validateVectorData, collectVectorIssues, vectorChecks,
    filter_isNonNumber_map_num, filter_isExtreme_small v hsmall, hlen]

/-- Concrete store with no collections whose similarity search throws
(as the backing store does for a missing collection). -/
def storeSearchThrows : StoreModel :=
  { collectionExistsR := fun _ => .ok false
    getCollectionInfoR := fun _ => .ok none
    createCollectionR := fun _ _ => .ok ()
    addDocumentsR := fun _ _ => .ok ()
    searchR := fun _ _ _ =>
      .error "Failed to search collection: Not found: Collection docs does not exist" }

/-- Concrete embedding service of dimension 4 returning one query
vector. -/
def svcQuery4 : SvcModel :=
  { vectorSize := 4
    generateR := fun _ => .ok [JSItem.arr [.num 0, .num 0, .num 0, .num 1]] }

/-- C1 counterexample: the claim says a search against a missing
collection short-circuits to the "No results found." message without
issuing a store similarity-search call.  But handleSearch has no such
short-circuit: with the collection absent, the compatibility check
passes (create_collection) and the handler proceeds to issue the store
search call; when that call throws, the user gets an error message,
not "No results found.". -/
theorem c1_search_missing_collection_counterexample :
    storeSearchThrows.collectionExistsR "docs" = .ok false ∧
    (handleSearch storeSearchThrows (.ok svcQuery4) ⟨"q", "docs", none⟩).2 =
      [StoreEvent.existsCheck "docs", StoreEvent.searchCall "docs"] ∧
    (handleSearch storeSearchThrows (.ok svcQuery4) ⟨"q", "docs", none⟩).1 =
      { text := "Error searching: Failed to search collection: Not found: Collection docs does not exist"
        isError := true } ∧
    ("Error searching: Failed to search collection: Not found: Collection docs does not exist" : String) ≠
      "No results found." := by
  refine ⟨rfl, rfl, rfl, by decide⟩

theorem result_prefix_ne_noresults (s : String) :
    "Result " ++ s ≠ "No results found." := by
  intro h
  have h4 : ("Result " ++ s).data.head? =
      ("No results found." : String).data.head? := by rw [h]
  rw [show ("Result " ++ s).data.head? = some (Char.ofNat 82) from rfl] at h4
  exact absurd h4 (by decide)

theorem result_prefix_ne_empty (s : String) : "Result " ++ s ≠ "" := by
  intro h
  have h4 : ("Result " ++ s).data.head? = ("" : String).data.head? := by
    rw [h]
  rw [show ("Result " ++ s).data.head? = some (Char.ofNat 82) from rfl] at h4
  exact absurd h4 (by decide)

theorem formatHit_starts_with_result (i : ℕ) (r : SearchResult) :
    ∃ s, formatHit i r = "Result " ++ s := by
  unfold formatHit
  by_cases h : resultSource r.payload ≠ ""
  · simp only [if_pos h, String.append_assoc]
    exact ⟨_, rfl⟩
  · simp only [if_neg h, String.append_assoc]
    exact ⟨_, rfl⟩

theorem formatResults_cons_starts_with_result (i : ℕ) (r : SearchResult)
    (rs : List SearchResult) :
    ∃ s, formatResults i (r :: rs) = "Result " ++ s := by
  obtain ⟨s0, hs0⟩ := formatHit_starts_with_result i r
  refine ⟨s0 ++ formatResults (i + 1) rs, ?_⟩
  show formatHit i r ++ formatResults (i + 1) rs = _
  rw [hs0, String.append_assoc]

/-- Concrete store with no collections whose similarity search returns
one hit. -/
def storeSearchHit : StoreModel :=
  { collectionExistsR := fun _ => .ok false
    getCollectionInfoR := fun _ => .ok none
    createCollectionR := fun _ _ => .ok ()
    addDocumentsR := fun _ _ => .ok ()
    searchR := fun _ _ _ =>
      .ok [⟨"id1", 1, ⟨some "hello", none, none, none, "raw"⟩⟩] }

/-- C1 amended: for a search whose target collection is absent, the
compatibility check passes (create_collection) and the handler never
issues a collection-creation call, but it does issue the store
similarity-search call; "No results found." is produced exactly when
that call returns an empty result list — a nonempty result list yields
a non-error message different from "No results found.", and a throwing
call surfaces as an error message. -/
theorem c1_search_missing_collection_amended
    (store : StoreModel) (svc : SvcModel) (args : SearchArgsM) (v : List ℚ)
    (habs : store.collectionExistsR args.collection = .ok false)
    (hgen : svc.generateR [args.query] = .ok [JSItem.arr (v.map JSVal.num)])
    (hlen : v.length = svc.vectorSize)
    (hsmall : ∀ q ∈ v, |q| ≤ 100) :
    (handleSearch store (.ok svc) args).2 =
      [StoreEvent.existsCheck args.collection,
       StoreEvent.searchCall args.collection] ∧
    (store.searchR args.collection (JSItem.arr (v.map JSVal.num))
        args.limit = .ok [] →
      (handleSearch store (.ok svc) args).1 =
        { text := "No results found.", isError := false }) ∧
    (∀ r rs, store.searchR args.collection (JSItem.arr (v.map JSVal.num))
        args.limit = .ok (r :: rs) →
      (handleSearch store (.ok svc) args).1.isError = false ∧
      (handleSearch store (.ok svc) args).1.text ≠ "No results found.") ∧
    (∀ e, store.searchR args.collection (JSItem.arr (v.map JSVal.num))
        args.limit = .error e →
      (handleSearch store (.ok svc) args).1 =
        { text := "Error searching: " ++ e, isError := true }) := by
  have hvv := validateVectorData_single_ok svc.vectorSize v hlen hsmall
  have hcompat : validateEmbeddingCompatibility store args.collection
      svc.vectorSize =
      ({ isValid := true
         reason := "Collection does not exist - will be created with correct dimensions"
         expectedVectorSize := svc.vectorSize
         actualVectorSize := none
         action := .create_collection
         suggestedActions := none },
       [StoreEvent.existsCheck args.collection]) := by
    simp [validateEmbeddingCompatibility, habs]
  refine ⟨?_, ?_, ?_, ?_⟩
  · rcases hsr : store.searchR args.collection
        (JSItem.arr (v.map JSVal.num)) args.limit with e | rs
    · simp [handleSearch, hcompat, hgen, hvv, hsr]
    · simp [handleSearch, hcompat, hgen, hvv, hsr]
  · intro hok
    simp [handleSearch, hcompat, hgen, hvv, hok, formatResults]
  · intro r rs hok
    obtain ⟨s, hs⟩ := formatResults_cons_starts_with_result 0 r rs
    have hne : ("Result " ++ s : String) ≠ "" := result_prefix_ne_empty s
    constructor
    · simp [handleSearch, hcompat, hgen, hvv, hok]
    · simp [handleSearch, hcompat, hgen, hvv, hok, hs, hne]
      exact result_prefix_ne_noresults s
  · intro e hsr
    simp [handleSearch, hcompat, hgen, hvv, hsr]

theorem c1_search_missing_collection_amended_witness :
    storeAbsent.collectionExistsR "docs" = .ok false ∧
    ([0, 0, 0, 1] : List ℚ).length = svcQuery4.vectorSize ∧
    (handleSearch storeAbsent (.ok svcQuery4) ⟨"q", "docs", none⟩).2 =
      [StoreEvent.existsCheck "docs", StoreEvent.searchCall "docs"] ∧
    (handleSearch storeAbsent (.ok svcQuery4) ⟨"q", "docs", none⟩).1 =
      { text := "No results found.", isError := false } ∧
    (handleSearch storeSearchHit (.ok svcQuery4) ⟨"q", "docs", none⟩).1.isError =
      false ∧
    (handleSearch storeSearchHit (.ok svcQuery4) ⟨"q", "docs", none⟩).1.text ≠
      "No results found." ∧
    (handleSearch storeSearchThrows (.ok svcQuery4) ⟨"q", "docs", none⟩).1 =
      { text := "Error searching: " ++
          "Failed to search collection: Not found: Collection docs does not exist"
        isError := true } :=
  ⟨rfl, rfl,
   (c1_search_missing_collection_amended storeAbsent svcQuery4
     ⟨"q", "docs", none⟩ [0, 0, 0, 1] rfl rfl rfl
     (by intro q hq; fin_cases hq <;> norm_num)).1,
   (c1_search_missing_collection_amended storeAbsent svcQuery4
     ⟨"q", "docs", none⟩ [0, 0, 0, 1] rfl rfl rfl
     (by intro q hq; fin_cases hq <;> norm_num)).2.1 rfl,
   ((c1_search_missing_collection_amended storeSearchHit svcQuery4
     ⟨"q", "docs", none⟩ [0, 0, 0, 1] rfl rfl rfl
     (by intro q hq; fin_cases hq <;> norm_num)).2.2.1
     ⟨"id1", 1, ⟨some "hello", none, none, none, "raw"⟩⟩ [] rfl).1,
   ((c1_search_missing_collection_amended storeSearchHit svcQuery4
     ⟨"q", "docs", none⟩ [0, 0, 0, 1] rfl rfl rfl
     (by intro q hq; fin_cases hq <;> norm_num)).2.2.1
     ⟨"id1", 1, ⟨some "hello", none, none, none, "raw"⟩⟩ [] rfl).2,
   (c1_search_missing_collection_amended storeSearchThrows svcQuery4
     ⟨"q", "docs", none⟩ [0, 0, 0, 1] rfl rfl rfl
     (by intro q hq; fin_cases hq <;> norm_num)).2.2.2
     "Failed to search collection: Not found: Collection docs does not exist"
     rfl⟩

/-- A store event that mutates store state (collection creation or
point upsert). -/
def isMutationEvent : StoreEvent → Bool
  | .createCall _ _ => true
  | .upsertCall _ _ => true
  | .existsCheck _ => false
  | .getInfo _ => false
  | .searchCall _ => false

theorem validateEC_trace_pure (store : StoreModel) (c : String) (d : ℕ) :
    ((validateEmbeddingCompatibility store c d).2).filter isMutationEvent = [] := by
  unfold validateEmbeddingCompatibility
  rcases store.collectionExistsR c with e | b
  · rfl
  · cases b
    · rfl
    · rcases store.getCollectionInfoR c with e | info
      · rfl
      · rcases info with _ | i
        · rfl
        · dsimp only
          split <;> rfl

/-- C4: in the ingest pipeline, a negative compatibility verdict or a
negative vector-batch verdict makes the handler return an error result
with no collection-creation call and no upsert call issued, so the
store is unmutated on every validation failure. -/
theorem ingest_validation_failure_no_mutation
    (tp : TPState) (args : AddDocsArgsM) (content : String)
    (split : ℕ → ℕ → String → List String) (svc : SvcModel)
    (store : StoreModel)
    (hfail :
      (validateEmbeddingCompatibility store args.collection
          svc.vectorSize).1.isValid = false ∨
      ∃ embs,
        svc.generateR (split
          (configureProcessor tp args.chunkSizeArg args.chunkOverlapArg).chunkSize
          (configureProcessor tp args.chunkSizeArg args.chunkOverlapArg).chunkOverlap
          content) = .ok embs ∧
        (validateVectorData embs svc.vectorSize).isValid = false) :
    (handleAddDocuments tp args (.ok content) split (.ok svc)
        store).1.isError = true ∧
    ((handleAddDocuments tp args (.ok content) split (.ok svc)
        store).2.1).filter isMutationEvent = [] := by
  rcases hcv : validateEmbeddingCompatibility store args.collection
      svc.vectorSize with ⟨cres, ctrace⟩
  have htr : ctrace.filter isMutationEvent = [] := by
    have h0 := validateEC_trace_pure store args.collection svc.vectorSize
    rw [hcv] at h0
    exact h0
  rcases hfail with h | ⟨embs, hgen, hvv⟩
  · rw [hcv] at h
    simp only at h
    simp [handleAddDocuments, handleAddDocumentsBody, hcv, h, htr]
  · cases hb : cres.isValid with
    | false =>
        simp [handleAddDocuments, handleAddDocumentsBody, hcv, hb, htr]
    | true =>
        simp [handleAddDocuments, handleAddDocumentsBody, hcv, hb, hgen,
          hvv, htr]

theorem ingest_validation_failure_no_mutation_witness :
    (validateEmbeddingCompatibility storeDocs4 "docs"
        svcDim1.vectorSize).1.isValid = false ∧
    ((handleAddDocuments defaultTPState ⟨"f", "docs", none, none⟩
        (.ok "text") probeSplit (.ok svcDim1) storeDocs4).1.isError = true ∧
     ((handleAddDocuments defaultTPState ⟨"f", "docs", none, none⟩
        (.ok "text") probeSplit (.ok svcDim1) storeDocs4).2.1).filter
        isMutationEvent = []) :=
  ⟨by decide,
   ingest_validation_failure_no_mutation defaultTPState
     ⟨"f", "docs", none, none⟩ "text" probeSplit svcDim1 storeDocs4
     (Or.inl (by decide))⟩
